import Mathlib

/-!
Formal model of the controller layer of the capstone booking/scheduling
application (`UserController`, `BookingController`, `SettingsController`).
The controller source files are not part of the repository snapshot — only
their mocha test suites and route-handler callers are — so each controller
operation below is modelled from the specification (and cross-checked
against `tests/controllers/UserController.test.js`,
`tests/controllers/SettingsController.test.js` and the BookingController
test suite).  DAO calls and the bcrypt oracles are explicit function or
outcome parameters; operations whose call discipline is audited by the
tests additionally return the list of calls they made.  JavaScript promise
rejection is modelled by `Except String` carrying the error message.
-/

deriving instance DecidableEq for Except

/-- A JavaScript-falsy optional string argument: `none` models
`null`/`undefined`, `some ""` models the empty string.  `optFalsy` mirrors
the `!x` truthiness check the controllers apply to string arguments. -/
def optFalsy : Option String → Bool
  | none => true
  | some s => s == ""

/-- Substring containment: `strContains s sub` holds when `sub` occurs
contiguously inside `s`.  This states the `err.message.includes(...)`
assertions of the test suites. -/
def strContains (s sub : String) : Prop :=
  ∃ pre post, s = pre ++ sub ++ post

/-- Lexicographic comparison of character lists by code point, the order
JavaScript's `<=` induces on ASCII strings such as `YYYY-MM-DD` dates. -/
def strLexLe : List Char → List Char → Bool
  | [], _ => true
  | _ :: _, [] => false
  | a :: as, b :: bs =>
    if a.toNat < b.toNat then true
    else if b.toNat < a.toNat then false
    else strLexLe as bs

/-- `strLe a b` is JavaScript's `a <= b` on strings (lexicographic by code
point). -/
def strLe (a b : String) : Bool := strLexLe a.data b.data

/-- First-occurrence deduplication with an accumulator of already-emitted
values, the order `[...new Set(xs)]` produces in JavaScript. -/
def dedupFirstAux (seen : List String) : List String → List String
  | [] => []
  | d :: rest =>
    if d ∈ seen then dedupFirstAux seen rest
    else d :: dedupFirstAux (d :: seen) rest

/-- First-occurrence deduplication of a list of strings. -/
def dedupFirst (l : List String) : List String := dedupFirstAux [] l

/-- A User record as stored by the DAO layer.  `password := none` models a
record with no `password` field; `password := some h` models a stored
bcrypt hash `h`. -/
structure User where
  id : String
  name : String
  email : String
  password : Option String
  role : String
  status : String
  deriving Repr, DecidableEq

/-- Modelled from the spec: redaction — "removal of the `password` field
from a User record before it leaves the core". -/
def redactUser (u : User) : User := { u with password := none }

/-- `true` when a User record carries no `password` field. -/
def User.clean (u : User) : Bool := u.password.isNone

/-- `true` when an optional User record carries no `password` field. -/
def cleanOpt : Option User → Bool
  | none => true
  | some u => u.clean

/-- `true` when a fallible optional-User outcome exposes no `password`. -/
def cleanExcOpt : Except String (Option User) → Bool
  | .error _ => true
  | .ok r => cleanOpt r

/-- `true` when a fallible User-list outcome exposes no `password` in any
element. -/
def cleanExcList : Except String (List User) → Bool
  | .error _ => true
  | .ok l => l.all User.clean

/-- `true` when a fallible single-User outcome exposes no `password`. -/
def cleanExcUser : Except String User → Bool
  | .error _ => true
  | .ok u => u.clean

/-- Modelled from the spec: `UserController.getAllUsers()` (the controller
source file is absent from the snapshot; behavior follows spec §4.3 and the
test suite).  `dao` is the outcome of `userDao.getAllUsers()`; every
returned record is redacted and DAO failure is rethrown as
`Failed to get all users: <cause>`. -/
def getAllUsers (dao : Except String (List User)) : Except String (List User) :=
  match dao with
  | .error e => .error ("Failed to get all users: " ++ e)
  | .ok us => .ok (us.map redactUser)

/-- Modelled from the spec: `UserController.getUserById(id)`.  `dao` is the
outcome of `userDao.getUserById(id)`; a found record is redacted, a miss is
`null`, and DAO failure is rethrown as `Failed to get user by ID: <cause>`. -/
def getUserById (dao : Except String (Option User)) : Except String (Option User) :=
  match dao with
  | .error e => .error ("Failed to get user by ID: " ++ e)
  | .ok none => .ok none
  | .ok (some u) => .ok (some (redactUser u))

/-- Modelled from the spec: `UserController.getUserByEmail(email)`.  `dao`
is the outcome of `userDao.getUserByEmail(email)`; a found record is
redacted, a miss is `null`, and DAO failure is rethrown as
`Failed to get user by email: <cause>`. -/
def getUserByEmail (dao : Except String (Option User)) : Except String (Option User) :=
  match dao with
  | .error e => .error ("Failed to get user by email: " ++ e)
  | .ok none => .ok none
  | .ok (some u) => .ok (some (redactUser u))

/-- Modelled from the spec: `UserController.deleteUser(id)`.  `dao` is the
outcome of `userDao.deleteUser(id)`; the deleted record is redacted, a miss
is `null`, and DAO failure is rethrown as `Failed to delete user: <cause>`. -/
def deleteUser (dao : Except String (Option User)) : Except String (Option User) :=
  match dao with
  | .error e => .error ("Failed to delete user: " ++ e)
  | .ok none => .ok none
  | .ok (some u) => .ok (some (redactUser u))

/-- The outcome of one `authenticateUser` run: its result together with the
list of `bcrypt.compare` invocations it performed (plaintext, stored hash). -/
structure AuthRun where
  result : Except String (Option User)
  compareCalls : List (String × Option String)
  deriving Repr, DecidableEq

/-- Modelled from the spec: `UserController.authenticateUser(email, password)`.
`lookup` is the outcome of `userDao.getUserByEmail(email)` and `cmp` is the
`bcrypt.compare` oracle.  Per spec §4.3: no such user → `null`; a found user
whose `status !== "active"` → `Authentication failed: User account is not
active` (before any password comparison); an active user → one comparison of
the plaintext against the stored hash, returning the redacted user on match
and `null` on mismatch; DAO failure → `Authentication failed: <cause>`. -/
def authenticateUser (lookup : Except String (Option User)) (plaintext : String)
    (cmp : String → Option String → Bool) : AuthRun :=
  match lookup with
  | .error e => ⟨.error ("Authentication failed: " ++ e), []⟩
  | .ok none => ⟨.ok none, []⟩
  | .ok (some u) =>
    if u.status = "active" then
      if cmp plaintext u.password then
        ⟨.ok (some (redactUser u)), [(plaintext, u.password)]⟩
      else
        ⟨.ok none, [(plaintext, u.password)]⟩
    else
      ⟨.error "Authentication failed: User account is not active", []⟩

/-- The payload handed to `createUser` / `userDao.createUser`; `none`
fields model absent object properties. -/
structure NewUser where
  name : Option String
  email : Option String
  password : Option String
  role : Option String
  status : Option String
  deriving Repr, DecidableEq

/-- The outcome of one `createUser` run: its result, the `bcrypt.hash`
invocations (plaintext, work factor), and the `userDao.createUser` calls. -/
structure CreateUserRun where
  result : Except String User
  hashCalls : List (String × Nat)
  daoCalls : List NewUser
  deriving Repr, DecidableEq

/-- Modelled from the spec: `UserController.createUser(data)`.  `lookup` is
the outcome of the email-uniqueness pre-check `userDao.getUserByEmail`,
`daoCreate` the persistence call, `hash` the `bcrypt.hash` oracle.  Per spec
§4.3: missing name or email → `Failed to create user: Name and email are
required`; an existing user under the email → `Failed to create user: User
with this email already exists`; a supplied password is replaced by its
hash at work factor 10 before persisting, an absent one is persisted as
absent without invoking the hash; the created record is returned redacted;
DAO failure → `Failed to create user: <cause>`. -/
def createUser (lookup : Except String (Option User))
    (daoCreate : NewUser → Except String User)
    (hash : String → Nat → String) (data : NewUser) : CreateUserRun :=
  if optFalsy data.name || optFalsy data.email then
    ⟨.error "Failed to create user: Name and email are required", [], []⟩
  else
    match lookup with
    | .error e => ⟨.error ("Failed to create user: " ++ e), [], []⟩
    | .ok (some _) =>
      ⟨.error "Failed to create user: User with this email already exists", [], []⟩
    | .ok none =>
      match data.password with
      | some p =>
        match daoCreate { data with password := some (hash p 10) } with
        | .ok u =>
          ⟨.ok (redactUser u), [(p, 10)], [{ data with password := some (hash p 10) }]⟩
        | .error e =>
          ⟨.error ("Failed to create user: " ++ e), [(p, 10)],
            [{ data with password := some (hash p 10) }]⟩
      | none =>
        match daoCreate data with
        | .ok u => ⟨.ok (redactUser u), [], [data]⟩
        | .error e => ⟨.error ("Failed to create user: " ++ e), [], [data]⟩

/-- A partial update to a User; `none` fields model absent patch
properties. -/
structure UserPatch where
  name : Option String
  email : Option String
  password : Option String
  status : Option String
  deriving Repr, DecidableEq

/-- The outcome of one `updateUser` run: its result, the number of
email-uniqueness lookups (`userDao.getUserByEmail` calls) performed, and
the `userDao.updateUser` calls made. -/
structure UpdateUserRun where
  result : Except String (Option User)
  emailLookups : Nat
  daoCalls : List (String × UserPatch)
  deriving Repr, DecidableEq

/-- Replace a plaintext `password` in a patch by its hash at work factor
10; leave a patch without a password untouched. -/
def hashPatch (hash : String → Nat → String) (patch : UserPatch) : UserPatch :=
  match patch.password with
  | some p => { patch with password := some (hash p 10) }
  | none => patch

/-- Shared tail of `updateUser`: hash a supplied plaintext password,
forward the patch to `userDao.updateUser`, and redact the outcome;
`n` is the number of email-uniqueness lookups already performed. -/
def updateUserApply (daoUpdate : String → UserPatch → Except String (Option User))
    (hash : String → Nat → String) (id : String) (patch : UserPatch)
    (n : Nat) : UpdateUserRun :=
  match daoUpdate id (hashPatch hash patch) with
  | .error e => ⟨.error ("Failed to update user: " ++ e), n, [(id, hashPatch hash patch)]⟩
  | .ok none => ⟨.ok none, n, [(id, hashPatch hash patch)]⟩
  | .ok (some u) => ⟨.ok (some (redactUser u)), n, [(id, hashPatch hash patch)]⟩

/-- Modelled from the spec: `UserController.updateUser(id, patch)`.
`lookupById` is the outcome of the existence pre-check
`userDao.getUserById(id)`; `lookupByEmail` the outcome of the
email-uniqueness lookup, consulted only when `patch.email` is present and
differs from the stored email; `daoUpdate` the persistence call.  Per spec
§4.3: unknown id → `null`; a changed email held by another user →
`Failed to update user: Email already exists`; an unchanged or absent
`patch.email` skips the uniqueness lookup entirely; a supplied password is
hashed before persisting; the updated record is returned redacted; DAO
failure → `Failed to update user: <cause>`. -/
def updateUser (lookupById : Except String (Option User))
    (lookupByEmail : Except String (Option User))
    (daoUpdate : String → UserPatch → Except String (Option User))
    (hash : String → Nat → String) (id : String) (patch : UserPatch) : UpdateUserRun :=
  match lookupById with
  | .error e => ⟨.error ("Failed to update user: " ++ e), 0, []⟩
  | .ok none => ⟨.ok none, 0, []⟩
  | .ok (some current) =>
    match patch.email with
    | some e2 =>
      if e2 = current.email then
        updateUserApply daoUpdate hash id patch 0
      else
        match lookupByEmail with
        | .error e => ⟨.error ("Failed to update user: " ++ e), 1, []⟩
        | .ok (some _) => ⟨.error "Failed to update user: Email already exists", 1, []⟩
        | .ok none => updateUserApply daoUpdate hash id patch 1
    | none => updateUserApply daoUpdate hash id patch 0

/-- Modelled from the spec and the test suite:
`UserController.changeUserStatus(id, status)` validates the status enum,
then calls `userDao.updateUser(id, {status})` directly (per the tests, the
existence pre-check of `updateUser` is not performed) and redacts the
outcome.  `daoUpdate` is the outcome of that call. -/
def changeUserStatus (daoUpdate : Except String (Option User)) (status : String) :
    Except String (Option User) :=
  if status = "active" || status = "inactive" || status = "suspended" then
    match daoUpdate with
    | .error e => .error ("Failed to change user status: " ++ e)
    | .ok none => .ok none
    | .ok (some u) => .ok (some (redactUser u))
  else
    .error
      "Failed to change user status: Invalid status. Must be active, inactive, or suspended"

/-- Modelled from the spec: `UserController.getUsersByRole(role)` loads all
users, filters by `role`, and redacts each; DAO failure is rethrown as
`Failed to get users by role: <cause>`. -/
def getUsersByRole (dao : Except String (List User)) (role : String) :
    Except String (List User) :=
  match dao with
  | .error e => .error ("Failed to get users by role: " ++ e)
  | .ok us => .ok ((us.filter (fun u => u.role == role)).map redactUser)

/-- A Booking record as returned by the DAO layer. -/
structure Booking where
  id : String
  userId : String
  role : String
  groupName : String
  groupType : String
  groupSize : Nat
  interests : List String
  otherInfo : String
  date : String
  status : String
  created : String
  deriving Repr, DecidableEq

/-- The payload handed to `createBooking`; `none` fields model absent
object properties. -/
structure BookingData where
  userId : Option String
  role : Option String
  groupName : Option String
  groupType : Option String
  groupSize : Option Nat
  interests : List String
  otherInfo : Option String
  date : Option String
  deriving Repr, DecidableEq

/-- `true` when one of the five mandatory booking-creation fields
(`userId`, `groupName`, `groupType`, `groupSize`, `date`) is absent. -/
def missingRequired (d : BookingData) : Bool :=
  d.userId.isNone || d.groupName.isNone || d.groupType.isNone ||
    d.groupSize.isNone || d.date.isNone

/-- The outcome of one `createBooking` run: its result together with the
`bookingDao.createBooking` calls it made. -/
structure CreateBookingRun where
  result : Except String Booking
  daoCalls : List BookingData
  deriving Repr, DecidableEq

/-- Modelled from the spec: `BookingController.createBooking(data)`
validates the presence of `userId`, `groupName`, `groupType`, `groupSize`
and `date` — a missing one yields `Failed to create booking: Missing
required booking fields` before any DAO call — and otherwise persists the
record unmodified via `bookingDao.createBooking(data)`, rethrowing DAO
failure as `Failed to create booking: <cause>`. -/
def createBooking (dao : BookingData → Except String Booking) (data : BookingData) :
    CreateBookingRun :=
  if missingRequired data then
    ⟨.error "Failed to create booking: Missing required booking fields", []⟩
  else
    match dao data with
    | .ok b => ⟨.ok b, [data]⟩
    | .error e => ⟨.error ("Failed to create booking: " ++ e), [data]⟩

/-- Modelled from the spec: `BookingController.getAvailableDates(startDate,
endDate)` loads all bookings (`dao` is that outcome) and returns the
ordered sequence of distinct `date` values with `startDate <= date <=
endDate` under lexicographic string comparison, inclusive at both ends,
regardless of booking status; DAO failure is rethrown as `Failed to get
available dates: <cause>`. -/
def getAvailableDates (dao : Except String (List Booking)) (startDate endDate : String) :
    Except String (List String) :=
  match dao with
  | .error e => .error ("Failed to get available dates: " ++ e)
  | .ok bs =>
    .ok (dedupFirst
      ((bs.filter (fun b => strLe startDate b.date && strLe b.date endDate)).map
        (fun b => b.date)))

/-- A Setting record.  The `value` payload is opaque to the controller and
modelled as its JSON text. -/
structure Setting where
  key : String
  value : String
  description : String
  deriving Repr, DecidableEq

/-- An Availability record. -/
structure Availability where
  type : String
  userId : String
  dates : List String
  role : Option String
  deriving Repr, DecidableEq

/-- The outcome of one `createOrUpdateSetting` run: its result together
with the `settingsDao.createOrUpdateSetting` calls (key, value,
description) it made. -/
structure SettingRun where
  result : Except String Setting
  daoCalls : List (String × String × String)
  deriving Repr, DecidableEq

/-- Modelled from the spec: `SettingsController.createOrUpdateSetting(key,
value, description = "")` fails with `Setting key is required` when `key`
is empty/null/undefined — before any DAO call — and otherwise upserts via
the DAO with the description defaulted to the empty string when omitted;
DAO failure is rethrown as `Failed to create/update setting: <cause>`. -/
def createOrUpdateSetting (dao : String → String → String → Except String Setting)
    (key : Option String) (value : String) (description : Option String) : SettingRun :=
  if optFalsy key then
    ⟨.error "Setting key is required", []⟩
  else
    match dao (key.getD "") value (description.getD "") with
    | .ok s => ⟨.ok s, [(key.getD "", value, description.getD "")]⟩
    | .error e =>
      ⟨.error ("Failed to create/update setting: " ++ e),
        [(key.getD "", value, description.getD "")]⟩

/-- The outcome of one availability-upsert run: its result together with
the `settingsDao.createOrUpdateAvailability` calls (type, userId, dates,
role) it made. -/
structure AvailRun where
  result : Except String Availability
  daoCalls : List (String × String × List String × Option String)
  deriving Repr, DecidableEq

/-- Modelled from the spec: `SettingsController.createOrUpdateAvailability(
type, userId, dates, role = null)` fails with `Type and userId are
required` when either is empty/null/undefined, then — only after that check
— with `Invalid type. Must be hosting or obs` when `type` is not `hosting`
or `obs`; both validations precede any DAO call.  Otherwise it upserts via
the DAO, rethrowing DAO failure as `Failed to create/update availability:
<cause>`. -/
def createOrUpdateAvailability
    (dao : String → String → List String → Option String → Except String Availability)
    (type userId : Option String) (dates : List String) (role : Option String) : AvailRun :=
  if optFalsy type || optFalsy userId then
    ⟨.error "Type and userId are required", []⟩
  else
    if type.getD "" = "hosting" || type.getD "" = "obs" then
      match dao (type.getD "") (userId.getD "") dates role with
      | .ok a => ⟨.ok a, [(type.getD "", userId.getD "", dates, role)]⟩
      | .error e =>
        ⟨.error ("Failed to create/update availability: " ++ e),
          [(type.getD "", userId.getD "", dates, role)]⟩
    else
      ⟨.error "Invalid type. Must be hosting or obs", []⟩

/-- Modelled from the spec: `SettingsController.updateObsAvailability(
userId, dates, role)` — sugar delegating to
`createOrUpdateAvailability("obs", userId, dates, role)`, rewrapping any
failure as `Failed to update observatory availability: <cause>`. -/
def updateObsAvailability
    (dao : String → String → List String → Option String → Except String Availability)
    (userId : Option String) (dates : List String) (role : Option String) : AvailRun :=
  match createOrUpdateAvailability dao (some "obs") userId dates role with
  | ⟨.ok a, calls⟩ => ⟨.ok a, calls⟩
  | ⟨.error e, calls⟩ =>
    ⟨.error ("Failed to update observatory availability: " ++ e), calls⟩

/-- Modelled from the spec: `SettingsController.updateHostingAvailability(
userId, dates, role)` — sugar delegating to
`createOrUpdateAvailability("hosting", userId, dates, role)`, rewrapping
any failure as `Failed to update hosting availability: <cause>`. -/
def updateHostingAvailability
    (dao : String → String → List String → Option String → Except String Availability)
    (userId : Option String) (dates : List String) (role : Option String) : AvailRun :=
  match createOrUpdateAvailability dao (some "hosting") userId dates role with
  | ⟨.ok a, calls⟩ => ⟨.ok a, calls⟩
  | ⟨.error e, calls⟩ =>
    ⟨.error ("Failed to update hosting availability: " ++ e), calls⟩

theorem clean_redactUser (u : User) : (redactUser u).clean = true := rfl

theorem all_clean_map_redact (l : List User) : (l.map redactUser).all User.clean = true := by
  induction l with
  | nil => rfl
  | cons h t ih => simp [List.map_cons, List.all_cons, ih, clean_redactUser]

theorem mem_dedupFirstAux (l : List String) :
    ∀ seen x, x ∈ dedupFirstAux seen l ↔ x ∈ l ∧ x ∉ seen := by
  induction l with
  | nil => intro seen x; simp [dedupFirstAux]
  | cons d rest ih =>
    intro seen x
    simp only [dedupFirstAux]
    by_cases hd : d ∈ seen
    · rw [if_pos hd, ih seen x]
      simp only [List.mem_cons]
      constructor
      · rintro ⟨h1, h2⟩
        exact ⟨Or.inr h1, h2⟩
      · rintro ⟨h1 | h1, h2⟩
        · exact absurd (h1 ▸ hd) h2
        · exact ⟨h1, h2⟩
    · rw [if_neg hd]
      simp only [List.mem_cons, ih (d :: seen) x, List.mem_cons]
      constructor
      · rintro (rfl | ⟨h1, h2⟩)
        · exact ⟨Or.inl rfl, hd⟩
        · exact ⟨Or.inr h1, fun hs => h2 (Or.inr hs)⟩
      · rintro ⟨h1 | h1, h2⟩
        · exact Or.inl h1
        · by_cases hxd : x = d
          · exact Or.inl hxd
          · exact Or.inr ⟨h1, fun hs => hs.elim hxd h2⟩

theorem nodup_dedupFirstAux (l : List String) :
    ∀ seen, (dedupFirstAux seen l).Nodup := by
  induction l with
  | nil => intro seen; simp [dedupFirstAux]
  | cons d rest ih =>
    intro seen
    simp only [dedupFirstAux]
    by_cases hd : d ∈ seen
    · rw [if_pos hd]; exact ih seen
    · rw [if_neg hd]
      refine List.nodup_cons.mpr ⟨?_, ih (d :: seen)⟩
      intro hmem
      exact ((mem_dedupFirstAux rest (d :: seen) d).mp hmem).2 (List.mem_cons_self d seen)

theorem sublist_dedupFirstAux (l : List String) :
    ∀ seen, (dedupFirstAux seen l).Sublist l := by
  induction l with
  | nil => intro seen; simp [dedupFirstAux]
  | cons d rest ih =>
    intro seen
    simp only [dedupFirstAux]
    by_cases hd : d ∈ seen
    · rw [if_pos hd]
      exact (ih seen).trans (List.sublist_cons_self d rest)
    · rw [if_neg hd]
      exact (ih (d :: seen)).cons₂ d

theorem filterMapDate_status (f : Booking → String) (s e : String) (bs : List Booking) :
    (((bs.map (fun b => { b with status := f b })).filter
        (fun b => strLe s b.date && strLe b.date e)).map (fun b => b.date))
      = ((bs.filter (fun b => strLe s b.date && strLe b.date e)).map (fun b => b.date)) := by
  induction bs with
  | nil => rfl
  | cons b t ih =>
    simp only [List.map_cons, List.filter_cons]
    by_cases hp : (strLe s b.date && strLe b.date e) = true
    · simp only [hp, if_pos]
      simp only [List.map_cons, ih]
    · simp only [hp, if_neg]
      simpa using ih

/-- C3: for every pair of date strings and every DAO booking list,
`getAvailableDates` succeeds (even on malformed date strings) and returns
exactly the distinct booking dates lying between `startDate` and `endDate`
inclusive under lexicographic comparison, without duplicates, in
bookings-list order (a sublist of the dates in DAO order), and
independently of every booking's `status`. -/
theorem getAvailableDates_range_spec (s e : String) (bs : List Booking) :
    ∃ res, getAvailableDates (.ok bs) s e = .ok res ∧
      (∀ d, d ∈ res ↔ ∃ b, b ∈ bs ∧ b.date = d ∧ strLe s d = true ∧ strLe d e = true) ∧
      res.Nodup ∧
      res.Sublist (bs.map (fun b => b.date)) ∧
      (∀ f : Booking → String,
        getAvailableDates (.ok (bs.map (fun b => { b with status := f b }))) s e = .ok res) := by
  refine ⟨_, rfl, ?_, ?_, ?_, ?_⟩
  · intro d
    rw [dedupFirst, mem_dedupFirstAux]
    simp only [List.mem_map, List.mem_filter, Bool.and_eq_true, List.not_mem_nil,
      not_false_iff, and_true]
    constructor
    · rintro ⟨b, ⟨hb, h1, h2⟩, rfl⟩
      exact ⟨b, hb, rfl, h1, h2⟩
    · rintro ⟨b, hb, rfl, h1, h2⟩
      exact ⟨b, ⟨hb, h1, h2⟩, rfl⟩
  · exact nodup_dedupFirstAux _ _
  · exact (sublist_dedupFirstAux _ _).trans
      ((List.filter_sublist bs).map (fun b => b.date))
  · intro f
    simp only [getAvailableDates]
    rw [filterMapDate_status]

theorem getAllUsers_clean (dao : Except String (List User)) :
    cleanExcList (getAllUsers dao) = true := by
  cases dao with
  | error e => rfl
  | ok us => exact all_clean_map_redact us

theorem getUserById_clean (dao : Except String (Option User)) :
    cleanExcOpt (getUserById dao) = true := by
  cases dao with
  | error e => rfl
  | ok r => cases r <;> rfl

theorem getUserByEmail_clean (dao : Except String (Option User)) :
    cleanExcOpt (getUserByEmail dao) = true := by
  cases dao with
  | error e => rfl
  | ok r => cases r <;> rfl

theorem deleteUser_clean (dao : Except String (Option User)) :
    cleanExcOpt (deleteUser dao) = true := by
  cases dao with
  | error e => rfl
  | ok r => cases r <;> rfl

theorem authenticateUser_clean (lookup : Except String (Option User)) (p : String)
    (cmp : String → Option String → Bool) :
    cleanExcOpt (authenticateUser lookup p cmp).result = true := by
  cases lookup with
  | error e => rfl
  | ok r =>
    cases r with
    | none => rfl
    | some u =>
      by_cases hs : u.status = "active"
      · cases hc : cmp p u.password <;> simp [authenticateUser, hs, hc, cleanExcOpt,
          cleanOpt, clean_redactUser]
      · simp [authenticateUser, hs, cleanExcOpt]

theorem createUser_clean (lk : Except String (Option User))
    (dc : NewUser → Except String User) (h : String → Nat → String) (d : NewUser) :
    cleanExcUser (createUser lk dc h d).result = true := by
  unfold createUser
  split
  · rfl
  · split
    · rfl
    · rfl
    · split
      · split <;> rfl
      · split <;> rfl

theorem updateUserApply_clean (dao : String → UserPatch → Except String (Option User))
    (h : String → Nat → String) (id : String) (patch : UserPatch) (n : Nat) :
    cleanExcOpt (updateUserApply dao h id patch n).result = true := by
  unfold updateUserApply
  split <;> rfl

theorem updateUser_clean (l1 l2 : Except String (Option User))
    (dao : String → UserPatch → Except String (Option User))
    (h : String → Nat → String) (id : String) (patch : UserPatch) :
    cleanExcOpt (updateUser l1 l2 dao h id patch).result = true := by
  unfold updateUser
  split
  · rfl
  · rfl
  · split
    · split
      · exact updateUserApply_clean dao h id patch 0
      · split
        · rfl
        · rfl
        · exact updateUserApply_clean dao h id patch 1
    · exact updateUserApply_clean dao h id patch 0

theorem changeUserStatus_clean (dao : Except String (Option User)) (status : String) :
    cleanExcOpt (changeUserStatus dao status) = true := by
  unfold changeUserStatus
  split
  · split <;> rfl
  · rfl

theorem getUsersByRole_clean (dao : Except String (List User)) (role : String) :
    cleanExcList (getUsersByRole dao role) = true := by
  cases dao with
  | error e => rfl
  | ok us => exact all_clean_map_redact (us.filter (fun u => u.role == role))

/-- C1: for every User-controller operation (getAllUsers, getUserById,
getUserByEmail, authenticateUser, createUser, updateUser, deleteUser,
changeUserStatus, getUsersByRole) and every DAO outcome, every User record
the operation returns — single or sequence element — has no `password`
field, even when the DAO-supplied record contains one. -/
theorem userController_returns_only_redacted_users
    (dl dr : Except String (List User))
    (d1 d2 d3 dd dst : Except String (Option User))
    (lookupC : Except String (Option User)) (daoCreate : NewUser → Except String User)
    (lookupById lookupByEmail : Except String (Option User))
    (daoUpdate : String → UserPatch → Except String (Option User))
    (hash : String → Nat → String) (cmp : String → Option String → Bool)
    (p id role status : String) (dataN : NewUser) (patch : UserPatch) :
    cleanExcList (getAllUsers dl) = true ∧
    cleanExcOpt (getUserById d1) = true ∧
    cleanExcOpt (getUserByEmail d2) = true ∧
    cleanExcOpt (authenticateUser d3 p cmp).result = true ∧
    cleanExcUser (createUser lookupC daoCreate hash dataN).result = true ∧
    cleanExcOpt (updateUser lookupById lookupByEmail daoUpdate hash id patch).result = true ∧
    cleanExcOpt (deleteUser dd) = true ∧
    cleanExcOpt (changeUserStatus dst status) = true ∧
    cleanExcList (getUsersByRole dr role) = true :=
  ⟨getAllUsers_clean dl, getUserById_clean d1, getUserByEmail_clean d2,
   authenticateUser_clean d3 p cmp, createUser_clean lookupC daoCreate hash dataN,
   updateUser_clean lookupById lookupByEmail daoUpdate hash id patch,
   deleteUser_clean dd, changeUserStatus_clean dst status, getUsersByRole_clean dr role⟩

/-- A constant `bcrypt.compare` oracle, as the test suite stubs it. -/
def cmpAlways (r : Bool) : String → Option String → Bool := fun _ _ => r

/-- The active sample user of the test suite. -/
def activeUser : User :=
  ⟨"1", "User 1", "user1@test.com", some "hashedpwd", "member", "active"⟩

/-- The inactive sample user of the test suite. -/
def inactiveUser : User :=
  ⟨"1", "User 1", "user1@test.com", some "hashedpwd", "member", "inactive"⟩

theorem strContains_of_eq_append (lbl rest s : String) (h : s = lbl ++ rest) :
    strContains s lbl :=
  ⟨"", rest, by rw [h]; rfl⟩

theorem strContains_of_eq_append_right (pre cause s : String) (h : s = pre ++ cause) :
    strContains s cause :=
  ⟨pre, "", by rw [h, String.append_empty]⟩

/-- C2: `authenticateUser` returns `null` when the email lookup finds no
user; throws exactly `Authentication failed: User account is not active`
when the found user is not active; returns `null` without throwing when the
user is active but password verification fails; and returns the redacted
user when verification succeeds. -/
theorem authenticateUser_case_analysis (u : User) (p : String)
    (cmp : String → Option String → Bool) :
    (authenticateUser (.ok none) p cmp).result = .ok none ∧
    (u.status ≠ "active" →
      (authenticateUser (.ok (some u)) p cmp).result =
        .error "Authentication failed: User account is not active") ∧
    (u.status = "active" → cmp p u.password = false →
      (authenticateUser (.ok (some u)) p cmp).result = .ok none) ∧
    (u.status = "active" → cmp p u.password = true →
      (authenticateUser (.ok (some u)) p cmp).result = .ok (some (redactUser u))) := by
  refine ⟨rfl, ?_, ?_, ?_⟩
  · intro hs; simp [authenticateUser, hs]
  · intro hs hc; simp [authenticateUser, hs, hc]
  · intro hs hc; simp [authenticateUser, hs, hc]

/-- Witness for C2 at the test suite's concrete inputs. -/
theorem authenticateUser_case_analysis_witness :
    (authenticateUser (.ok none) "plainpassword" (cmpAlways true)).result = .ok none ∧
    (authenticateUser (.ok (some inactiveUser)) "plainpassword" (cmpAlways true)).result =
      .error "Authentication failed: User account is not active" ∧
    (authenticateUser (.ok (some activeUser)) "wrongpassword" (cmpAlways false)).result =
      .ok none ∧
    (authenticateUser (.ok (some activeUser)) "plainpassword" (cmpAlways true)).result =
      .ok (some (redactUser activeUser)) :=
  ⟨(authenticateUser_case_analysis inactiveUser "plainpassword" (cmpAlways true)).1,
   (authenticateUser_case_analysis inactiveUser "plainpassword" (cmpAlways true)).2.1
     (by decide),
   (authenticateUser_case_analysis activeUser "wrongpassword" (cmpAlways false)).2.2.1
     rfl rfl,
   (authenticateUser_case_analysis activeUser "plainpassword" (cmpAlways true)).2.2.2
     rfl rfl⟩

/-- C10: for a non-active user, `authenticateUser` throws the not-active
error without ever invoking the password-verification oracle, and the
entire run (result and comparison trace) is independent of the supplied
plaintext and of the verification oracle's behavior. -/
theorem authenticateUser_inactive_noninterference (u : User) (p1 p2 : String)
    (c1 c2 : String → Option String → Bool) (h : u.status ≠ "active") :
    (authenticateUser (.ok (some u)) p1 c1).compareCalls = [] ∧
    (authenticateUser (.ok (some u)) p1 c1).result =
      .error "Authentication failed: User account is not active" ∧
    authenticateUser (.ok (some u)) p1 c1 = authenticateUser (.ok (some u)) p2 c2 := by
  simp [authenticateUser, h]

/-- Witness for C10: an inactive user, two different plaintexts and two
opposite verification oracles. -/
theorem authenticateUser_inactive_noninterference_witness :
    (authenticateUser (.ok (some inactiveUser)) "pw1" (cmpAlways true)).compareCalls = [] ∧
    (authenticateUser (.ok (some inactiveUser)) "pw1" (cmpAlways true)).result =
      .error "Authentication failed: User account is not active" ∧
    authenticateUser (.ok (some inactiveUser)) "pw1" (cmpAlways true) =
      authenticateUser (.ok (some inactiveUser)) "pw2" (cmpAlways false) :=
  authenticateUser_inactive_noninterference inactiveUser "pw1" "pw2"
    (cmpAlways true) (cmpAlways false) (by decide)

/-- C4: with valid name/email and no existing user under the email,
`createUser` persists a supplied password only as its hash at work
factor 10 (the plaintext never reaches the DAO), and when no password is
supplied it persists the record without one and never invokes the hash
oracle. -/
theorem createUser_password_hashing_discipline
    (daoCreate : NewUser → Except String User) (hash : String → Nat → String)
    (data : NewUser) (hn : optFalsy data.name = false) (he : optFalsy data.email = false) :
    (∀ p, data.password = some p →
      (createUser (.ok none) daoCreate hash data).hashCalls = [(p, 10)] ∧
      (createUser (.ok none) daoCreate hash data).daoCalls =
        [{ data with password := some (hash p 10) }] ∧
      ∀ d ∈ (createUser (.ok none) daoCreate hash data).daoCalls,
        d.password = some (hash p 10)) ∧
    (data.password = none →
      (createUser (.ok none) daoCreate hash data).hashCalls = [] ∧
      (createUser (.ok none) daoCreate hash data).daoCalls = [data] ∧
      ∀ d ∈ (createUser (.ok none) daoCreate hash data).daoCalls, d.password = none) := by
  have hv : ¬ ((optFalsy data.name || optFalsy data.email) = true) := by
    rw [hn, he]; simp
  constructor
  · intro p hp
    cases hdc : daoCreate { data with password := some (hash p 10) } <;>
      simp [createUser, hv, hp, hdc]
  · intro hp
    cases hdc : daoCreate data <;>
      simp [createUser, hv, hp, hdc]

/-- A hash oracle used by concrete witnesses. -/
def hashTest : String → Nat → String := fun _ _ => "hashedpassword123"

/-- The DAO create outcome used by concrete witnesses. -/
def userDaoCreateOk : NewUser → Except String User :=
  fun d => .ok ⟨"1", d.name.getD "", d.email.getD "", d.password, d.role.getD "member",
    d.status.getD "active"⟩

/-- The `createUser` payload of the test suite, with a password. -/
def newUserWithPassword : NewUser :=
  ⟨some "New User", some "new@test.com", some "plainpassword", none, none⟩

/-- Witness for C4 at the test suite's concrete payload. -/
theorem createUser_password_hashing_discipline_witness :
    (createUser (.ok none) userDaoCreateOk hashTest newUserWithPassword).hashCalls =
      [("plainpassword", 10)] ∧
    (createUser (.ok none) userDaoCreateOk hashTest newUserWithPassword).daoCalls =
      [{ newUserWithPassword with password := some "hashedpassword123" }] ∧
    (createUser (.ok none) userDaoCreateOk hashTest
        { newUserWithPassword with password := none }).hashCalls = [] ∧
    (createUser (.ok none) userDaoCreateOk hashTest
        { newUserWithPassword with password := none }).daoCalls =
      [{ newUserWithPassword with password := none }] := by
  have h1 := (createUser_password_hashing_discipline userDaoCreateOk hashTest
    newUserWithPassword rfl rfl).1 "plainpassword" rfl
  have h2 := (createUser_password_hashing_discipline userDaoCreateOk hashTest
    { newUserWithPassword with password := none } rfl rfl).2 rfl
  exact ⟨h1.1, h1.2.1, h2.1, h2.2.1⟩

theorem updateUserApply_run (dao : String → UserPatch → Except String (Option User))
    (hash : String → Nat → String) (id : String) (patch : UserPatch) (n : Nat) :
    (updateUserApply dao hash id patch n).emailLookups = n ∧
    (updateUserApply dao hash id patch n).daoCalls = [(id, hashPatch hash patch)] := by
  unfold updateUserApply
  split <;> exact ⟨rfl, rfl⟩

/-- C5: when the patch carries an email different from the stored one,
`updateUser` performs exactly one email-uniqueness lookup and fails with
`Failed to update user: Email already exists` if another user holds that
email; when the patch email is absent or equal to the stored email, the
uniqueness lookup is never invoked (zero lookups) and the DAO update
proceeds. -/
theorem updateUser_email_uniqueness_check_policy
    (lookupByEmail : Except String (Option User))
    (daoUpdate : String → UserPatch → Except String (Option User))
    (hash : String → Nat → String) (id : String) (patch : UserPatch) (current : User) :
    (∀ e2, patch.email = some e2 → e2 ≠ current.email →
      (updateUser (.ok (some current)) lookupByEmail daoUpdate hash id patch).emailLookups
          = 1 ∧
      (∀ other, lookupByEmail = .ok (some other) →
        (updateUser (.ok (some current)) lookupByEmail daoUpdate hash id patch).result =
          .error "Failed to update user: Email already exists")) ∧
    ((patch.email = none ∨ patch.email = some current.email) →
      (updateUser (.ok (some current)) lookupByEmail daoUpdate hash id patch).emailLookups
          = 0 ∧
      (updateUser (.ok (some current)) lookupByEmail daoUpdate hash id patch).daoCalls =
        [(id, hashPatch hash patch)]) := by
  obtain ⟨pn, pe, pp, ps⟩ := patch
  constructor
  · rintro e2 rfl hne
    unfold updateUser
    simp only [UserPatch.email]
    rw [if_neg hne]
    constructor
    · cases lookupByEmail with
      | error e => rfl
      | ok r =>
        cases r with
        | none => exact (updateUserApply_run daoUpdate hash id _ 1).1
        | some other => rfl
    · rintro other rfl
      rfl
  · rintro (rfl | rfl)
    · unfold updateUser
      simp only [UserPatch.email]
      exact updateUserApply_run daoUpdate hash id _ 0
    · unfold updateUser
      simp only [UserPatch.email, eq_self_iff_true, if_true]
      exact updateUserApply_run daoUpdate hash id _ 0

/-- The DAO update outcome used by concrete witnesses. -/
def userDaoUpdateOk : String → UserPatch → Except String (Option User) :=
  fun _ p => .ok (some ⟨"1", p.name.getD "User", p.email.getD "same@test.com",
    p.password, "member", p.status.getD "active"⟩)

/-- The stored user of the same-email update scenario of the test suite. -/
def sameEmailUser : User :=
  ⟨"1", "User", "same@test.com", none, "member", "active"⟩

/-- Witness for C5: a same-email patch performs zero uniqueness lookups
and one DAO update, and a changed-email patch colliding with another user
fails with the documented message after one lookup. -/
theorem updateUser_email_uniqueness_check_policy_witness :
    ((updateUser (.ok (some sameEmailUser)) (.ok none) userDaoUpdateOk hashTest "1"
        ⟨some "Updated Name", some "same@test.com", none, none⟩).emailLookups = 0 ∧
      (updateUser (.ok (some sameEmailUser)) (.ok none) userDaoUpdateOk hashTest "1"
        ⟨some "Updated Name", some "same@test.com", none, none⟩).daoCalls =
        [("1", ⟨some "Updated Name", some "same@test.com", none, none⟩)]) ∧
    ((updateUser (.ok (some sameEmailUser)) (.ok (some activeUser)) userDaoUpdateOk hashTest
        "1" ⟨none, some "existing@test.com", none, none⟩).emailLookups = 1 ∧
      (updateUser (.ok (some sameEmailUser)) (.ok (some activeUser)) userDaoUpdateOk hashTest
        "1" ⟨none, some "existing@test.com", none, none⟩).result =
        .error "Failed to update user: Email already exists") := by
  have h1 := (updateUser_email_uniqueness_check_policy (.ok none) userDaoUpdateOk hashTest
    "1" ⟨some "Updated Name", some "same@test.com", none, none⟩ sameEmailUser).2
    (Or.inr rfl)
  have h2 := (updateUser_email_uniqueness_check_policy (.ok (some activeUser))
    userDaoUpdateOk hashTest "1" ⟨none, some "existing@test.com", none, none⟩
    sameEmailUser).1 "existing@test.com" rfl (by decide)
  exact ⟨⟨h1.1, h1.2⟩, ⟨h2.1, h2.2 activeUser rfl⟩⟩

/-- The sample booking of the test suite. -/
def mockBooking : Booking :=
  ⟨"507f1f77bcf86cd799439011", "user123", "customer", "Test Group", "Family", 5,
    ["Stars", "Planets"], "Test booking info", "2025-10-20", "pending",
    "2025-10-16T10:00:00.000Z"⟩

/-- The valid creation payload of the test suite: all five mandatory
fields present. -/
def validBookingData : BookingData :=
  ⟨some "user123", some "customer", some "Test Group", some "Family", some 5,
    ["Stars"], some "Test info", some "2025-10-20"⟩

/-- A booking DAO that always succeeds with the sample booking. -/
def bookingDaoOk : BookingData → Except String Booking := fun _ => .ok mockBooking

/-- C6 counterexample: with all five mandatory fields present and a DAO
whose failure cause is itself the string `Missing required booking fields`,
`createBooking` throws exactly `Failed to create booking: Missing required
booking fields` although no field is missing (and the DAO create was
invoked), so the claimed "only if" direction fails. -/
theorem createBooking_missing_fields_iff_cex :
    missingRequired validBookingData = false ∧
    (createBooking (fun _ => .error "Missing required booking fields")
        validBookingData).result =
      .error "Failed to create booking: Missing required booking fields" ∧
    (createBooking (fun _ => .error "Missing required booking fields")
        validBookingData).daoCalls = [validBookingData] := by
  refine ⟨rfl, ?_, rfl⟩
  rfl

/-- C6 as amended: `createBooking` throws `Failed to create booking:
Missing required booking fields` *without invoking the DAO* exactly when
one of the five mandatory fields is missing; with all five present the DAO
create is invoked once with the unmodified input, its success value is
returned, and a DAO failure is rethrown under the `Failed to create
booking:` prefix. -/
theorem createBooking_validation_amended (dao : BookingData → Except String Booking)
    (data : BookingData) :
    (missingRequired data = true →
      (createBooking dao data).result =
        .error "Failed to create booking: Missing required booking fields" ∧
      (createBooking dao data).daoCalls = []) ∧
    (missingRequired data = false →
      (createBooking dao data).daoCalls = [data] ∧
      (∀ b, dao data = .ok b → (createBooking dao data).result = .ok b) ∧
      (∀ e, dao data = .error e →
        (createBooking dao data).result = .error ("Failed to create booking: " ++ e))) ∧
    ((createBooking dao data).result =
        .error "Failed to create booking: Missing required booking fields" ∧
      (createBooking dao data).daoCalls = [] → missingRequired data = true) := by
  by_cases hm : missingRequired data = true
  · refine ⟨fun _ => ⟨?_, ?_⟩, fun hf => absurd hm (by simp [hf]), fun _ => hm⟩
    · simp [createBooking, hm]
    · simp [createBooking, hm]
  · have hm2 : missingRequired data = false := by simpa using hm
    refine ⟨fun h => absurd h hm, fun _ => ⟨?_, ?_, ?_⟩, fun hc => ?_⟩
    · cases hdc : dao data <;> simp [createBooking, hm2, hdc]
    · intro b hb
      simp [createBooking, hm2, hb]
    · intro e he2
      simp [createBooking, hm2, he2]
    · exfalso
      rcases hc with ⟨_, hcalls⟩
      cases hdc : dao data <;> simp [createBooking, hm2, hdc] at hcalls

/-- Witness for the amended C6: the valid payload is persisted unmodified
through exactly one DAO call. -/
theorem createBooking_validation_amended_witness :
    missingRequired validBookingData = false ∧
    (createBooking bookingDaoOk validBookingData).daoCalls = [validBookingData] ∧
    (createBooking bookingDaoOk validBookingData).result = .ok mockBooking :=
  ⟨rfl, ((createBooking_validation_amended bookingDaoOk validBookingData).2.1 rfl).1,
    ((createBooking_validation_amended bookingDaoOk validBookingData).2.1 rfl).2.1
      mockBooking rfl⟩

/-- An availability DAO that always succeeds, echoing its arguments. -/
def availDaoOk : String → String → List String → Option String →
    Except String Availability :=
  fun t u ds r => .ok ⟨t, u, ds, r⟩

/-- C7 counterexample: with `type = "invalid"` (not `hosting`/`obs`) but an
*empty* `userId`, `createOrUpdateAvailability` fails with `Type and userId
are required` — a message that does not contain `Invalid type. Must be
hosting or obs` — because the required-field check runs first, so the claim
fails for empty `userId`. -/
theorem createOrUpdateAvailability_invalid_type_cex :
    ((some "invalid" : Option String) ≠ some "hosting" ∧
      (some "invalid" : Option String) ≠ some "obs") ∧
    (createOrUpdateAvailability availDaoOk (some "invalid") (some "")
        ["2025-10-20"] none).result = .error "Type and userId are required" ∧
    (createOrUpdateAvailability availDaoOk (some "invalid") (some "")
        ["2025-10-20"] none).daoCalls = [] ∧
    ¬ strContains "Type and userId are required" "Invalid type. Must be hosting or obs" := by
  refine ⟨⟨by decide, by decide⟩, rfl, rfl, ?_⟩
  rintro ⟨pre, post, h⟩
  have hl := congrArg String.length h
  simp only [String.length_append] at hl
  have h1 : ("Type and userId are required" : String).length = 28 := rfl
  have h2 : ("Invalid type. Must be hosting or obs" : String).length = 36 := rfl
  omega

/-- C7 as amended: for every call with `type` not in {`hosting`,`obs`} the
DAO is never invoked and the call fails; the failure message contains
`Invalid type. Must be hosting or obs` whenever `type` and `userId` are
both non-empty (otherwise the earlier required-field check reports `Type
and userId are required`). -/
theorem createOrUpdateAvailability_invalid_type_amended
    (dao : String → String → List String → Option String → Except String Availability)
    (type userId : Option String) (dates : List String) (role : Option String)
    (h1 : type ≠ some "hosting") (h2 : type ≠ some "obs") :
    (createOrUpdateAvailability dao type userId dates role).daoCalls = [] ∧
    (∃ msg, (createOrUpdateAvailability dao type userId dates role).result = .error msg) ∧
    (optFalsy type = false → optFalsy userId = false →
      ∃ msg, (createOrUpdateAvailability dao type userId dates role).result = .error msg ∧
        strContains msg "Invalid type. Must be hosting or obs") := by
  by_cases hf : (optFalsy type || optFalsy userId) = true
  · refine ⟨by simp [createOrUpdateAvailability, hf],
      ⟨"Type and userId are required", by simp [createOrUpdateAvailability, hf]⟩, ?_⟩
    intro ht hu
    rw [ht, hu] at hf
    simp at hf
  · have hff : (optFalsy type || optFalsy userId) = false := by simpa using hf
    have henum : (type.getD "" = "hosting" || type.getD "" = "obs") = false := by
      cases type with
      | none => simp [optFalsy] at hff
      | some t =>
        have ht1 : t ≠ "hosting" := fun h => h1 (by rw [h])
        have ht2 : t ≠ "obs" := fun h => h2 (by rw [h])
        simp [Option.getD, ht1, ht2]
    refine ⟨by simp [createOrUpdateAvailability, hff, henum], ?_, ?_⟩
    · exact ⟨"Invalid type. Must be hosting or obs",
        by simp [createOrUpdateAvailability, hff, henum]⟩
    · intro _ _
      refine ⟨"Invalid type. Must be hosting or obs",
        by simp [createOrUpdateAvailability, hff, henum], "", "", ?_⟩
      rfl

/-- Witness for the amended C7 at the test suite's invalid-type call. -/
theorem createOrUpdateAvailability_invalid_type_amended_witness :
    (createOrUpdateAvailability availDaoOk (some "invalid") (some "user1")
        ["2025-10-20"] none).daoCalls = [] ∧
    (∃ msg, (createOrUpdateAvailability availDaoOk (some "invalid") (some "user1")
        ["2025-10-20"] none).result = .error msg ∧
      strContains msg "Invalid type. Must be hosting or obs") := by
  have h := createOrUpdateAvailability_invalid_type_amended availDaoOk (some "invalid")
    (some "user1") ["2025-10-20"] none (by decide) (by decide)
  exact ⟨h.1, h.2.2 rfl rfl⟩

/-- A settings DAO that always succeeds, echoing its arguments. -/
def settingDaoOk : String → String → String → Except String Setting :=
  fun k v d => .ok ⟨k, v, d⟩

/-- C8: a falsy `key` (empty, null, undefined) makes
`createOrUpdateSetting` fail with a message containing `Setting key is
required` without ever invoking the DAO; a non-empty key with the
description omitted reaches the DAO with the empty string as description. -/
theorem createOrUpdateSetting_key_required
    (dao : String → String → String → Except String Setting)
    (key : Option String) (value : String) (descr : Option String) :
    (optFalsy key = true →
      (createOrUpdateSetting dao key value descr).daoCalls = [] ∧
      ∃ msg, (createOrUpdateSetting dao key value descr).result = .error msg ∧
        strContains msg "Setting key is required") ∧
    (∀ k, key = some k → k ≠ "" →
      (createOrUpdateSetting dao key value none).daoCalls = [(k, value, "")]) := by
  constructor
  · intro hk
    refine ⟨by simp [createOrUpdateSetting, hk],
      "Setting key is required", by simp [createOrUpdateSetting, hk], "", "", ?_⟩
    rfl
  · rintro k rfl hne
    have hf2 : (optFalsy (some k)) = false := by simp [optFalsy, hne]
    cases hdc : dao k value "" <;>
      simp [createOrUpdateSetting, hf2, Option.getD, hdc]

/-- Witness for C8: a `null` key is rejected before the DAO, and an
omitted description reaches the DAO as the empty string. -/
theorem createOrUpdateSetting_key_required_witness :
    ((createOrUpdateSetting settingDaoOk none "testValue" none).daoCalls = [] ∧
      ∃ msg, (createOrUpdateSetting settingDaoOk none "testValue" none).result =
          .error msg ∧
        strContains msg "Setting key is required") ∧
    (createOrUpdateSetting settingDaoOk (some "testKey") "testValue" none).daoCalls =
      [("testKey", "testValue", "")] :=
  ⟨(createOrUpdateSetting_key_required settingDaoOk none "testValue" none).1 rfl,
   (createOrUpdateSetting_key_required settingDaoOk (some "testKey") "testValue"
      none).2 "testKey" rfl (by decide)⟩

theorem optFalsy_some_ne (u : String) (h : u ≠ "") : optFalsy (some u) = false := by
  simp [optFalsy, h]

/-- C9: `updateObsAvailability(userId, dates, role)` delegates to the
create-or-update availability path with arguments exactly `("obs", userId,
dates, role)` (visible as the single DAO upsert call) and returns its
successful result unchanged, and `updateHostingAvailability` does the same
with type `"hosting"`; when the DAO fails, each throws a message containing
its own label together with the underlying cause. -/
theorem availability_sugar_delegation
    (dao : String → String → List String → Option String → Except String Availability)
    (userId : Option String) (dates : List String) (role : Option String)
    (u : String) (hu : userId = some u) (hne : u ≠ "") :
    ((updateObsAvailability dao userId dates role).daoCalls =
        [("obs", u, dates, role)] ∧
      (∀ a, dao "obs" u dates role = .ok a →
        (updateObsAvailability dao userId dates role).result = .ok a) ∧
      (∀ c, dao "obs" u dates role = .error c →
        ∃ msg, (updateObsAvailability dao userId dates role).result = .error msg ∧
          strContains msg "Failed to update observatory availability" ∧
          strContains msg c)) ∧
    ((updateHostingAvailability dao userId dates role).daoCalls =
        [("hosting", u, dates, role)] ∧
      (∀ a, dao "hosting" u dates role = .ok a →
        (updateHostingAvailability dao userId dates role).result = .ok a) ∧
      (∀ c, dao "hosting" u dates role = .error c →
        ∃ msg, (updateHostingAvailability dao userId dates role).result = .error msg ∧
          strContains msg "Failed to update hosting availability" ∧
          strContains msg c)) := by
  subst hu
  have hfu : optFalsy (some u) = false := optFalsy_some_ne u hne
  constructor
  · refine ⟨?_, ?_, ?_⟩
    · cases hdc : dao "obs" u dates role <;>
        simp [updateObsAvailability, createOrUpdateAvailability, hfu, optFalsy, hne, hdc]
    · intro a ha
      simp [updateObsAvailability, createOrUpdateAvailability, hfu, optFalsy, hne, ha]
    · intro c hc
      refine ⟨"Failed to update observatory availability: " ++
        ("Failed to create/update availability: " ++ c), ?_, ?_, ?_⟩
      · simp [updateObsAvailability, createOrUpdateAvailability, hfu, optFalsy, hne, hc]
      · refine strContains_of_eq_append "Failed to update observatory availability"
          (": " ++ ("Failed to create/update availability: " ++ c)) _ ?_
        rw [← String.append_assoc]
        rfl
      · refine strContains_of_eq_append_right
          ("Failed to update observatory availability: " ++
            "Failed to create/update availability: ") c _ ?_
        rw [String.append_assoc]
  · refine ⟨?_, ?_, ?_⟩
    · cases hdc : dao "hosting" u dates role <;>
        simp [updateHostingAvailability, createOrUpdateAvailability, hfu, optFalsy, hne, hdc]
    · intro a ha
      simp [updateHostingAvailability, createOrUpdateAvailability, hfu, optFalsy, hne, ha]
    · intro c hc
      refine ⟨"Failed to update hosting availability: " ++
        ("Failed to create/update availability: " ++ c), ?_, ?_, ?_⟩
      · simp [updateHostingAvailability, createOrUpdateAvailability, hfu, optFalsy, hne, hc]
      · refine strContains_of_eq_append "Failed to update hosting availability"
          (": " ++ ("Failed to create/update availability: " ++ c)) _ ?_
        rw [← String.append_assoc]
        rfl
      · refine strContains_of_eq_append_right
          ("Failed to update hosting availability: " ++
            "Failed to create/update availability: ") c _ ?_
        rw [String.append_assoc]

/-- An availability DAO that always fails with `Database error`. -/
def availDaoErr : String → String → List String → Option String →
    Except String Availability :=
  fun _ _ _ _ => .error "Database error"

/-- Witness for C9 at the test suite's concrete call: the DAO receives
exactly the delegated argument tuples, success passes through, and the DAO
failure message carries each label with the cause. -/
theorem availability_sugar_delegation_witness :
    ((updateObsAvailability availDaoOk (some "user1") ["2025-10-20"]
        (some "observer")).daoCalls =
      [("obs", "user1", ["2025-10-20"], some "observer")] ∧
    (updateObsAvailability availDaoOk (some "user1") ["2025-10-20"]
        (some "observer")).result =
      .ok ⟨"obs", "user1", ["2025-10-20"], some "observer"⟩) ∧
    ((updateHostingAvailability availDaoErr (some "user1") ["2025-10-20"]
        (some "host")).daoCalls = [("hosting", "user1", ["2025-10-20"], some "host")] ∧
    ∃ msg, (updateHostingAvailability availDaoErr (some "user1") ["2025-10-20"]
        (some "host")).result = .error msg ∧
      strContains msg "Failed to update hosting availability" ∧
      strContains msg "Database error") := by
  have hobs := availability_sugar_delegation availDaoOk (some "user1") ["2025-10-20"]
    (some "observer") "user1" rfl (by decide)
  have hhost := availability_sugar_delegation availDaoErr (some "user1") ["2025-10-20"]
    (some "host") "user1" rfl (by decide)
  exact ⟨⟨hobs.1.1, hobs.1.2.1 ⟨"obs", "user1", ["2025-10-20"], some "observer"⟩ rfl⟩,
    ⟨hhost.2.1, hhost.2.2.2 "Database error" rfl⟩⟩
